import Mathlib

/-!
Shallow embedding of the oxasl pipeline controller (`oxasl/oxford_asl.py`).

The controller orchestrates preprocessing, correction, registration, model
fitting, a conditional refinement pass, output materialization and cleanup
over a hierarchical workspace.  The external collaborator modules
(corrections, registration, masking, model fitting, segmentation) are not
part of the controller source; following the specification's collaborator
contracts they are modelled as opaque value-producing functions gathered in
an `Oracle`, while every decision and state update made by the controller
itself is embedded directly from the source.
-/

/-- An image artifact: voxel data as a flat list of integer intensities plus
an abstract header tag (`fsl.data.image.Image`). -/
structure Image where
  data : List Int
  header : Nat
deriving DecidableEq

/-- Abstract registration transform artifact. -/
abbrev Transform := Nat

/-- Named parameter maps produced by the model-fitting engine's final step
(`wsp.basil.finalstep`). -/
structure FinalStep where
  mean_ftiss : Option Image
  mean_fblood : Option Image
  mean_delttiss : Option Image
  mean_ftisswm : Option Image
  mean_deltwm : Option Image
  modelfit : Option Image
deriving DecidableEq

/-- Keys of the model-fit outputs consulted by `do_output`. -/
inductive FabberKey where
  | mean_ftiss
  | mean_fblood
  | mean_delttiss
  | mean_ftisswm
  | mean_deltwm
  | modelfit
deriving DecidableEq

/-- Lookup of a model-fit artifact by name, returning the absence marker when
the fit did not produce it (`wsp.basil.finalstep.ifnone(name, None)`). -/
def FinalStep.ifnone (fs : FinalStep) : FabberKey → Option Image
  | .mean_ftiss => fs.mean_ftiss
  | .mean_fblood => fs.mean_fblood
  | .mean_delttiss => fs.mean_delttiss
  | .mean_ftisswm => fs.mean_ftisswm
  | .mean_deltwm => fs.mean_deltwm
  | .modelfit => fs.modelfit

/-- The registration sub-workspace (`wsp.reg`). -/
structure RegWsp where
  regfrom : Option Image
  regfrom_orig : Option Image
  asl2struc : Option Transform
  struc2asl : Option Transform
  asl2struc_initial : Option Transform
  struc2asl_initial : Option Transform
deriving DecidableEq

/-- Registration sub-workspace with no artifacts resolved. -/
def emptyReg : RegWsp := ⟨none, none, none, none, none, none⟩

/-- The model-fit sub-workspace (`wsp.basil` or `wsp.basil_pvcorr`). -/
structure BasilWsp where
  finalstep : FinalStep
deriving DecidableEq

/-- The region-of-interest sub-workspace (`wsp.rois`). -/
structure RoisWsp where
  mask : Option Image
  mask_orig : Option Image
deriving DecidableEq

/-- The structural sub-workspace (`wsp.structural`). -/
structure StructuralWsp where
  struc : Option Image
  wm_pv : Option Image
  gm_pv : Option Image
  wm_pv_asl : Option Image
  gm_pv_asl : Option Image
deriving DecidableEq

/-- Calibration method chosen by the command-line defaulting logic. -/
inductive CalibMethod where
  | refregion
  | voxelwise
deriving DecidableEq

/-- Target sub-workspace of a model-fitting run. -/
inductive FitTarget where
  | basil
  | basil_pvcorr
deriving DecidableEq

/-- Collaborator invocations recorded by the controller, in call order. -/
inductive Event where
  | struc_init
  | apply_corrections
  | get_motion_correction
  | reg_asl2calib
  | reg_asl2struc (a b : Bool)
  | get_fieldmap_correction
  | get_cblip_correction
  | get_sensitivity_correction
  | generate_mask
  | basil_run (tgt : FitTarget) (prefit : Option Bool)
  | segment
  | struc2asl_resample
  | calib_init
  | report
deriving DecidableEq

/-- The top-level workspace: option snapshot plus artifact attributes used by
the controller.  An `Option` value of `none` is the absence marker. -/
structure Wsp where
  ntis : Nat
  batsd : Option ℚ
  pvcorr : Bool
  mask_opt : Option Image
  struc_opt : Option Image
  calib_opt : Option Image
  calib_method : Option CalibMethod
  debug : Bool
  save_all : Bool
  save_corrected : Bool
  save_reg : Bool
  save_basil : Bool
  save_calib : Bool
  sensitivity : Option Image
  corrected : Option Nat
  distcorr : Option Nat
  moco : Option Nat
  topup : Option Nat
  fieldmap : Option Nat
  calib2asl : Option Transform
  structural : StructuralWsp
  reg : Option RegWsp
  basil : Option BasilWsp
  basil_pvcorr : Option BasilWsp
  basil_options : Option (Image × Image)
  rois : RoisWsp
  calibration : Option Nat
  multiplier : Int
  native : List (String × Image)
  trace : List Event
deriving DecidableEq

/-- Modelled from the spec: the external collaborators (correction
estimators, correction applier, registration, mask generation, model
fitting, segmentation) are outside the controller source and are specified
only through their interfaces, so their returned artifacts are abstracted as
arbitrary functions of the workspace they observe. -/
structure Oracle where
  apply_corrections_result : Wsp → Option Nat
  motion_correction_result : Wsp → Option Nat
  fieldmap_result : Wsp → Option Nat
  cblip_result : Wsp → Option Nat
  sensitivity_result : Wsp → Option Image
  asl2calib_result : Wsp → Option Transform
  asl2struc_result : Wsp → Bool → Bool → Transform × Transform
  mask_result : Wsp → Image
  fit_result : Wsp → Option Bool → FinalStep
  segment_result : Wsp → Image × Image
  struc2asl_result : Wsp → Image → Image

/-- Modelled from the spec: structural reference initialization
(`struc.init`, a collaborator) resolves the structural reference from the
supplied structural option. -/
def struc_init (w : Wsp) : Wsp :=
  { w with structural := { w.structural with struc := w.struc_opt },
           trace := w.trace ++ [Event.struc_init] }

/-- Invocation of the correction applier (`corrections.apply_corrections`). -/
def apply_corrections (o : Oracle) (w : Wsp) : Wsp :=
  { w with corrected := o.apply_corrections_result w,
           trace := w.trace ++ [Event.apply_corrections] }

/-- Invocation of motion-correction estimation
(`corrections.get_motion_correction`). -/
def get_motion_correction (o : Oracle) (w : Wsp) : Wsp :=
  { w with moco := o.motion_correction_result w,
           trace := w.trace ++ [Event.get_motion_correction] }

/-- Invocation of calibration-to-ASL registration (`reg.reg_asl2calib`). -/
def reg_asl2calib (o : Oracle) (w : Wsp) : Wsp :=
  { w with calib2asl := o.asl2calib_result w,
           trace := w.trace ++ [Event.reg_asl2calib] }

/-- Invocation of ASL-to-structural registration (`reg.reg_asl2struc`);
per the spec's registration contract it produces the forward and inverse
transform artifacts. -/
def reg_asl2struc (o : Oracle) (a b : Bool) (w : Wsp) : Wsp :=
  let r := w.reg.getD emptyReg
  let t := o.asl2struc_result w a b
  { w with reg := some { r with asl2struc := some t.1, struc2asl := some t.2 },
           trace := w.trace ++ [Event.reg_asl2struc a b] }

/-- Invocation of fieldmap correction estimation
(`corrections.get_fieldmap_correction`). -/
def get_fieldmap_correction (o : Oracle) (w : Wsp) : Wsp :=
  { w with fieldmap := o.fieldmap_result w,
           trace := w.trace ++ [Event.get_fieldmap_correction] }

/-- Invocation of blip-pair (cblip/topup) correction estimation
(`corrections.get_cblip_correction`). -/
def get_cblip_correction (o : Oracle) (w : Wsp) : Wsp :=
  { w with topup := o.cblip_result w,
           trace := w.trace ++ [Event.get_cblip_correction] }

/-- Invocation of sensitivity correction estimation
(`corrections.get_sensitivity_correction`). -/
def get_sensitivity_correction (o : Oracle) (w : Wsp) : Wsp :=
  { w with sensitivity := o.sensitivity_result w,
           trace := w.trace ++ [Event.get_sensitivity_correction] }

/-- Invocation of native-space mask generation (`mask.generate_mask`). -/
def generate_mask (o : Oracle) (w : Wsp) : Wsp :=
  { w with rois := { w.rois with mask := some (o.mask_result w) },
           trace := w.trace ++ [Event.generate_mask] }

/-- The fixed preprocessing sequence (`oxasl_preproc`, source lines 149-170):
structural init, apply corrections, motion correction, apply corrections,
calib and structural registration, fieldmap/cblip/sensitivity estimation,
apply corrections a final time, then mask generation. -/
def oxasl_preproc (o : Oracle) (w : Wsp) : Wsp :=
  generate_mask o (apply_corrections o (get_sensitivity_correction o
    (get_cblip_correction o (get_fieldmap_correction o (reg_asl2struc o true false
      (reg_asl2calib o (apply_corrections o (get_motion_correction o
        (apply_corrections o (struc_init w))))))))))

/-- The collaborator-invocation sequence of the preprocessing phase. -/
def preproc_events : List Event :=
  [ Event.struc_init, Event.apply_corrections, Event.get_motion_correction,
    Event.apply_corrections, Event.reg_asl2calib, Event.reg_asl2struc true false,
    Event.get_fieldmap_correction, Event.get_cblip_correction,
    Event.get_sensitivity_correction, Event.apply_corrections, Event.generate_mask ]

/-- Replace every negative voxel value by zero, as in
`new_regfrom[new_regfrom < 0] = 0` (line 184) and
`data[img.data < 0] = 0` (line 247). -/
def clampNeg (d : List Int) : List Int :=
  d.map (fun v => if v < 0 then 0 else v)

/-- Zero every voxel at which the mask is zero, as in
`data[wsp.rois.mask.data == 0] = 0` (line 248). -/
def maskZero (d m : List Int) : List Int :=
  List.zipWith (fun v mv => if mv = 0 then 0 else v) d m

/-- The clamped-and-masked image built by `do_output` (lines 246-249):
a copy of the raw data with negatives zeroed and out-of-mask voxels zeroed,
under the raw image's header. -/
def materialize (img m : Image) : Image :=
  ⟨maskZero (clampNeg img.data) m.data, img.header⟩

/-- Conditional widening of the tissue arrival-time prior
(`oxasl_model` lines 173-176): for multi-TI data with no user-supplied prior
standard deviation, set the liberal default of 1. -/
def set_batsd_default (w : Wsp) : Wsp :=
  if 1 < w.ntis ∧ w.batsd = none then { w with batsd := some 1 } else w

/-- Invocation of the model-fitting engine (`basil.basil`) into the named
output sub-workspace, with an optional explicit `prefit` argument
(`none` means the engine's default was left in force). -/
def basil_run (o : Oracle) (tgt : FitTarget) (prefit : Option Bool) (w : Wsp) : Wsp :=
  let res : BasilWsp := ⟨o.fit_result w prefit⟩
  match tgt with
  | .basil =>
      { w with basil := some res, trace := w.trace ++ [Event.basil_run .basil prefit] }
  | .basil_pvcorr =>
      { w with basil_pvcorr := some res,
               trace := w.trace ++ [Event.basil_run .basil_pvcorr prefit] }

/-- The refinement body (`oxasl_model` lines 182-188): save the original
registration target, build a new target from the fitted perfusion map with
negatives clamped to zero under the old target's header, save the prior
transforms under the `..._initial` names, then re-run ASL-to-structural
registration with BBR.  The source dereferences these attributes
unconditionally, so the embedding acts only when they are resolved. -/
def refine (o : Oracle) (w : Wsp) : Wsp :=
  match w.reg, w.basil with
  | some r, some b =>
    match r.regfrom, b.finalstep.mean_ftiss with
    | some rf, some ft =>
      reg_asl2struc o false true
        { w with reg := some { r with
            regfrom_orig := some rf,
            regfrom := some ⟨clampNeg ft.data, rf.header⟩,
            asl2struc_initial := r.asl2struc,
            struc2asl_initial := r.struc2asl } }
    | _, _ => w
  | _, _ => w

/-- The refinement phase guard (`oxasl_model` line 181): the refinement runs
only when a structural reference is resolved. -/
def refinement_cond (o : Oracle) (w : Wsp) : Wsp :=
  if w.structural.struc ≠ none then refine o w else w

/-- Mask regeneration inside the partial-volume branch (lines 195-198): only
when no user mask was supplied and a structural image is available, save the
original mask as `rois.mask_orig`, drop the mask and regenerate it. -/
def regen_mask_cond (o : Oracle) (w : Wsp) : Wsp :=
  if w.mask_opt = none ∧ w.struc_opt ≠ none then
    generate_mask o { w with rois := { mask := none, mask_orig := w.rois.mask } }
  else w

/-- Invocation of tissue segmentation (`struc.segment`), producing the WM and
GM partial-volume maps in structural space. -/
def struc_segment (o : Oracle) (w : Wsp) : Wsp :=
  let p := o.segment_result w
  { w with structural := { w.structural with wm_pv := some p.1, gm_pv := some p.2 },
           trace := w.trace ++ [Event.segment] }

/-- Resampling of the WM partial-volume map into ASL space
(`reg.struc2asl`, line 202). -/
def struc2asl_wm (o : Oracle) (w : Wsp) : Wsp :=
  let img := o.struc2asl_result w (w.structural.wm_pv.getD ⟨[], 0⟩)
  { w with structural := { w.structural with wm_pv_asl := some img },
           trace := w.trace ++ [Event.struc2asl_resample] }

/-- Resampling of the GM partial-volume map into ASL space
(`reg.struc2asl`, line 203). -/
def struc2asl_gm (o : Oracle) (w : Wsp) : Wsp :=
  let img := o.struc2asl_result w (w.structural.gm_pv.getD ⟨[], 0⟩)
  { w with structural := { w.structural with gm_pv_asl := some img },
           trace := w.trace ++ [Event.struc2asl_resample] }

/-- Recording of the partial-volume options handed to the second fit
(line 204). -/
def set_basil_options (w : Wsp) : Wsp :=
  { w with basil_options :=
      match w.structural.wm_pv_asl, w.structural.gm_pv_asl with
      | some wm, some gm => some (wm, gm)
      | _, _ => none }

/-- The partial-volume-correction branch body (lines 192-205): conditional
mask regeneration, segmentation, resampling of both partial-volume maps,
option recording, then a second model fit into the `basil_pvcorr`
sub-workspace with `prefit` explicitly false. -/
def pvcorr_phase (o : Oracle) (w : Wsp) : Wsp :=
  basil_run o .basil_pvcorr (some false)
    (set_basil_options (struc2asl_gm o (struc2asl_wm o (struc_segment o (regen_mask_cond o w)))))

/-- The partial-volume-correction guard (line 192): the branch runs only
when the user flag is set. -/
def pvcorr_cond (o : Oracle) (w : Wsp) : Wsp :=
  if w.pvcorr then pvcorr_phase o w else w

/-- Modelled from the spec: sensitivity correction
(`corrections.apply_sensitivity_correction`, a collaborator) rescales
perfusion-like images voxelwise by the sensitivity map currently registered
in the workspace, and leaves the image unchanged when no map is registered. -/
def apply_sensitivity_correction (w : Wsp) (img : Image) : Image :=
  match w.sensitivity with
  | none => img
  | some s => ⟨List.zipWith (fun v c => if c = 0 then 0 else v / c) img.data s.data, img.header⟩

/-- Modelled from the spec: calibration (`calib.calibrate`, a collaborator)
scales the image voxelwise by the workspace's `multiplier` attribute. -/
def calibrate (w : Wsp) (img : Image) : Image :=
  ⟨img.data.map (fun v => v * w.multiplier), img.header⟩

/-- The declared output quantities (`output_items`, lines 232-239): model-fit
key, output name, calibration multiplier, perfusion-like flag. -/
def output_items : List (FabberKey × String × Int × Bool) :=
  [ (.mean_ftiss, "perfusion", 6000, true),
    (.mean_fblood, "aCBV", 100, true),
    (.mean_delttiss, "arrival", 1, false),
    (.mean_ftisswm, "perfusion_wm", 6000, true),
    (.mean_deltwm, "arrival_wm", 1, false),
    (.modelfit, "modelfit", 1, false) ]

/-- Materialization of one declared output quantity (lines 242-256): fetch
the raw artifact (skip if absent), clamp negatives and zero out-of-mask
voxels on a copy, apply sensitivity correction to perfusion-like
quantities, store the image, and for perfusion-like quantities with
calibration data set the multiplier and store a calibrated copy. -/
def do_output_item (w : Wsp) (item : FabberKey × String × Int × Bool) : Wsp :=
  match w.basil with
  | none => w
  | some b =>
    match b.finalstep.ifnone item.1 with
    | none => w
    | some img =>
      match w.rois.mask with
      | none => w
      | some m =>
        let name := item.2.1
        let mult := item.2.2.1
        let is_perfusion := item.2.2.2
        let img2 := materialize img m
        let img3 := if is_perfusion then apply_sensitivity_correction w img2 else img2
        let w1 := { w with native := w.native ++ [(name, img3)] }
        if is_perfusion ∧ w1.calib_opt ≠ none then
          let w2 := { w1 with multiplier := mult }
          { w2 with native := w2.native ++ [(name ++ "_calib", calibrate w2 img3)] }
        else w1

/-- Invocation of calibration initialization (`calib.init`, line 229). -/
def calib_init (w : Wsp) : Wsp :=
  { w with trace := w.trace ++ [Event.calib_init] }

/-- Output materialization (`do_output`, lines 225-256) over the single
always-present native output space. -/
def do_output (w : Wsp) : Wsp :=
  output_items.foldl do_output_item (calib_init w)

/-- Report generation (`do_report`, lines 211-223): a pure sink. -/
def do_report (w : Wsp) : Wsp :=
  { w with trace := w.trace ++ [Event.report] }

/-- Cleanup of the corrected-data group (lines 263-268). -/
def cleanup_corrected (w : Wsp) : Wsp :=
  if !(w.save_all || w.save_corrected) then
    { w with corrected := none, distcorr := none, moco := none, topup := none, fieldmap := none }
  else w

/-- Cleanup of the registration group (lines 269-270). -/
def cleanup_reg (w : Wsp) : Wsp :=
  if !(w.save_all || w.save_reg) then { w with reg := none } else w

/-- Cleanup of the model-fit group (lines 271-272). -/
def cleanup_basil (w : Wsp) : Wsp :=
  if !(w.save_all || w.save_basil) then { w with basil := none } else w

/-- Cleanup of the calibration group (lines 273-274). -/
def cleanup_calib (w : Wsp) : Wsp :=
  if !(w.save_all || w.save_calib) then { w with calibration := none } else w

/-- The cleanup stage (`do_cleanup`, lines 258-274). -/
def do_cleanup (w : Wsp) : Wsp :=
  cleanup_calib (cleanup_basil (cleanup_reg (cleanup_corrected w)))

/-- The model phase (`oxasl_model`, lines 172-209): prior widening, first
model fit, conditional refinement, conditional partial-volume correction,
then output materialization, report and cleanup. -/
def oxasl_model (o : Oracle) (w : Wsp) : Wsp :=
  do_cleanup (do_report (do_output (pvcorr_cond o (refinement_cond o
    (basil_run o .basil none (set_batsd_default w))))))

/-- The whole pipeline (`oxasl`, lines 137-147). -/
def oxasl (o : Oracle) (w : Wsp) : Wsp :=
  oxasl_model o (oxasl_preproc o w)

/-- The oxasl-specific command-line defaulting in `main` (lines 117-124):
calibration-method defaulting, and forcing the save-all override when debug
is set. -/
def main_defaults (w : Wsp) : Wsp :=
  let w1 :=
    if w.calib_opt ≠ none ∧ w.calib_method = none then
      if w.struc_opt ≠ none then { w with calib_method := some CalibMethod.refregion }
      else { w with calib_method := some CalibMethod.voxelwise }
    else w
  if w1.debug then { w1 with save_all := true } else w1

/-! Helper lemmas: field preservation (frame) facts for the individual
pipeline steps, and pointwise facts about the clamp/mask operations. -/

theorem clampNeg_nonneg (d : List Int) : ∀ v ∈ clampNeg d, 0 ≤ v := by
  intro v hv
  simp only [clampNeg, List.mem_map] at hv
  obtain ⟨x, _, hx⟩ := hv
  subst hx
  split <;> omega

theorem maskZero_nonneg (d m : List Int) (hd : ∀ v ∈ d, 0 ≤ v) :
    ∀ v ∈ maskZero d m, 0 ≤ v := by
  induction d generalizing m with
  | nil => intro v hv; simp [maskZero] at hv
  | cons a t ih =>
    cases m with
    | nil => intro v hv; simp [maskZero] at hv
    | cons b s =>
      intro v hv
      simp only [maskZero, List.zipWith_cons_cons, List.mem_cons] at hv
      rcases hv with h | h
      · subst h
        split
        · exact le_refl 0
        · exact hd a (List.mem_cons_self a t)
      · exact ih s (fun x hx => hd x (List.mem_cons_of_mem a hx)) v h

theorem maskZero_clampNeg_getD (d m : List Int) (i : Nat) (hi : i < d.length)
    (hl : d.length = m.length) :
    (maskZero (clampNeg d) m).getD i 0 =
      if d.getD i 0 < 0 ∨ m.getD i 0 = 0 then 0 else d.getD i 0 := by
  induction d generalizing m i with
  | nil => simp at hi
  | cons a t ih =>
    cases m with
    | nil => simp at hl
    | cons b s =>
      cases i with
      | zero =>
        simp only [clampNeg, List.map_cons, maskZero, List.zipWith_cons_cons,
          List.getD_cons_zero]
        by_cases hb : b = 0
        · by_cases ha : a < 0 <;> simp [hb, ha]
        · by_cases ha : a < 0 <;> simp [hb, ha]
      | succ j =>
        simp only [clampNeg, List.map_cons, maskZero, List.zipWith_cons_cons,
          List.getD_cons_succ]
        exact ih s j (by simpa using hi) (by simpa using hl)

theorem clampNeg_getD (d : List Int) (i : Nat) (hi : i < d.length) :
    (clampNeg d).getD i 0 = if d.getD i 0 < 0 then 0 else d.getD i 0 := by
  induction d generalizing i with
  | nil => simp at hi
  | cons a t ih =>
    cases i with
    | zero => simp [clampNeg]
    | succ j =>
      simp only [clampNeg, List.map_cons, List.getD_cons_succ]
      exact ih j (by simpa using hi)

theorem batsd_basil_run (o : Oracle) (t : FitTarget) (p : Option Bool) (w : Wsp) :
    (basil_run o t p w).batsd = w.batsd := by
  cases t <;> rfl

theorem reg_basil_run (o : Oracle) (t : FitTarget) (p : Option Bool) (w : Wsp) :
    (basil_run o t p w).reg = w.reg := by
  cases t <;> rfl

theorem structural_basil_run (o : Oracle) (t : FitTarget) (p : Option Bool) (w : Wsp) :
    (basil_run o t p w).structural = w.structural := by
  cases t <;> rfl

theorem pvcorr_basil_run (o : Oracle) (t : FitTarget) (p : Option Bool) (w : Wsp) :
    (basil_run o t p w).pvcorr = w.pvcorr := by
  cases t <;> rfl

theorem trace_basil_run (o : Oracle) (t : FitTarget) (p : Option Bool) (w : Wsp) :
    (basil_run o t p w).trace = w.trace ++ [Event.basil_run t p] := by
  cases t <;> rfl

theorem batsd_set_batsd_default (w : Wsp) :
    (set_batsd_default w).batsd = if 1 < w.ntis ∧ w.batsd = none then some 1 else w.batsd := by
  unfold set_batsd_default
  split <;> simp_all

theorem reg_set_batsd_default (w : Wsp) : (set_batsd_default w).reg = w.reg := by
  unfold set_batsd_default; split <;> rfl

theorem structural_set_batsd_default (w : Wsp) :
    (set_batsd_default w).structural = w.structural := by
  unfold set_batsd_default; split <;> rfl

theorem pvcorr_set_batsd_default (w : Wsp) : (set_batsd_default w).pvcorr = w.pvcorr := by
  unfold set_batsd_default; split <;> rfl

theorem trace_set_batsd_default (w : Wsp) : (set_batsd_default w).trace = w.trace := by
  unfold set_batsd_default; split <;> rfl

theorem batsd_refine (o : Oracle) (w : Wsp) : (refine o w).batsd = w.batsd := by
  unfold refine
  split
  · split
    · rfl
    · rfl
  · rfl

theorem basil_refine (o : Oracle) (w : Wsp) : (refine o w).basil = w.basil := by
  unfold refine
  split
  · split
    · rfl
    · rfl
  · rfl

theorem pvcorr_refine (o : Oracle) (w : Wsp) : (refine o w).pvcorr = w.pvcorr := by
  unfold refine
  split
  · split
    · rfl
    · rfl
  · rfl

theorem batsd_refinement_cond (o : Oracle) (w : Wsp) :
    (refinement_cond o w).batsd = w.batsd := by
  unfold refinement_cond
  split
  · exact batsd_refine o w
  · rfl

theorem basil_refinement_cond (o : Oracle) (w : Wsp) :
    (refinement_cond o w).basil = w.basil := by
  unfold refinement_cond
  split
  · exact basil_refine o w
  · rfl

theorem pvcorr_refinement_cond (o : Oracle) (w : Wsp) :
    (refinement_cond o w).pvcorr = w.pvcorr := by
  unfold refinement_cond
  split
  · exact pvcorr_refine o w
  · rfl

theorem refinement_cond_none (o : Oracle) (w : Wsp) (h : w.structural.struc = none) :
    refinement_cond o w = w := by
  unfold refinement_cond
  simp [h]

theorem batsd_generate_mask (o : Oracle) (w : Wsp) : (generate_mask o w).batsd = w.batsd := rfl

theorem batsd_regen_mask_cond (o : Oracle) (w : Wsp) :
    (regen_mask_cond o w).batsd = w.batsd := by
  unfold regen_mask_cond
  split <;> rfl

theorem trace_regen_mask_cond (o : Oracle) (w : Wsp) :
    (regen_mask_cond o w).trace = w.trace ++
      (if w.mask_opt = none ∧ w.struc_opt ≠ none then [Event.generate_mask] else []) := by
  unfold regen_mask_cond
  split <;> simp [generate_mask]

theorem batsd_struc_segment (o : Oracle) (w : Wsp) :
    (struc_segment o w).batsd = w.batsd := rfl

theorem batsd_struc2asl_wm (o : Oracle) (w : Wsp) :
    (struc2asl_wm o w).batsd = w.batsd := rfl

theorem batsd_struc2asl_gm (o : Oracle) (w : Wsp) :
    (struc2asl_gm o w).batsd = w.batsd := rfl

theorem batsd_set_basil_options (w : Wsp) :
    (set_basil_options w).batsd = w.batsd := rfl

theorem trace_struc_segment (o : Oracle) (w : Wsp) :
    (struc_segment o w).trace = w.trace ++ [Event.segment] := rfl

theorem trace_struc2asl_wm (o : Oracle) (w : Wsp) :
    (struc2asl_wm o w).trace = w.trace ++ [Event.struc2asl_resample] := rfl

theorem trace_struc2asl_gm (o : Oracle) (w : Wsp) :
    (struc2asl_gm o w).trace = w.trace ++ [Event.struc2asl_resample] := rfl

theorem trace_set_basil_options (w : Wsp) : (set_basil_options w).trace = w.trace := rfl

theorem batsd_pvcorr_phase (o : Oracle) (w : Wsp) :
    (pvcorr_phase o w).batsd = w.batsd := by
  unfold pvcorr_phase
  rw [batsd_basil_run, batsd_set_basil_options, batsd_struc2asl_gm, batsd_struc2asl_wm,
    batsd_struc_segment, batsd_regen_mask_cond]

theorem batsd_pvcorr_cond (o : Oracle) (w : Wsp) :
    (pvcorr_cond o w).batsd = w.batsd := by
  unfold pvcorr_cond
  split
  · exact batsd_pvcorr_phase o w
  · rfl

theorem trace_pvcorr_phase (o : Oracle) (w : Wsp) :
    (pvcorr_phase o w).trace = w.trace ++
      (if w.mask_opt = none ∧ w.struc_opt ≠ none then [Event.generate_mask] else []) ++
      [Event.segment, Event.struc2asl_resample, Event.struc2asl_resample,
       Event.basil_run .basil_pvcorr (some false)] := by
  unfold pvcorr_phase
  rw [trace_basil_run, trace_set_basil_options, trace_struc2asl_gm, trace_struc2asl_wm,
    trace_struc_segment, trace_regen_mask_cond]
  simp

theorem do_output_item_frame (w : Wsp) (it : FabberKey × String × Int × Bool) :
    (do_output_item w it).batsd = w.batsd ∧
    (do_output_item w it).basil = w.basil ∧
    (do_output_item w it).trace = w.trace ∧
    (do_output_item w it).basil_pvcorr = w.basil_pvcorr ∧
    (do_output_item w it).reg = w.reg ∧
    (do_output_item w it).rois = w.rois := by
  unfold do_output_item
  split
  · exact ⟨rfl, rfl, rfl, rfl, rfl, rfl⟩
  · split
    · exact ⟨rfl, rfl, rfl, rfl, rfl, rfl⟩
    · split
      · exact ⟨rfl, rfl, rfl, rfl, rfl, rfl⟩
      · dsimp only
        split
        · exact ⟨rfl, rfl, rfl, rfl, rfl, rfl⟩
        · exact ⟨rfl, rfl, rfl, rfl, rfl, rfl⟩

theorem foldl_do_output_item_frame (l : List (FabberKey × String × Int × Bool)) (w : Wsp) :
    (l.foldl do_output_item w).batsd = w.batsd ∧
    (l.foldl do_output_item w).basil = w.basil ∧
    (l.foldl do_output_item w).trace = w.trace ∧
    (l.foldl do_output_item w).basil_pvcorr = w.basil_pvcorr ∧
    (l.foldl do_output_item w).reg = w.reg := by
  induction l generalizing w with
  | nil => exact ⟨rfl, rfl, rfl, rfl, rfl⟩
  | cons a t ih =>
    have h := do_output_item_frame w a
    have h2 := ih (do_output_item w a)
    rw [List.foldl_cons]
    exact ⟨h2.1.trans h.1, h2.2.1.trans h.2.1, h2.2.2.1.trans h.2.2.1,
      h2.2.2.2.1.trans h.2.2.2.1, h2.2.2.2.2.trans h.2.2.2.2.1⟩

theorem batsd_do_output (w : Wsp) : (do_output w).batsd = w.batsd := by
  unfold do_output
  exact (foldl_do_output_item_frame output_items (calib_init w)).1

theorem basil_do_output (w : Wsp) : (do_output w).basil = w.basil := by
  unfold do_output
  exact (foldl_do_output_item_frame output_items (calib_init w)).2.1

theorem trace_do_output (w : Wsp) : (do_output w).trace = w.trace ++ [Event.calib_init] := by
  unfold do_output
  exact (foldl_do_output_item_frame output_items (calib_init w)).2.2.1

theorem batsd_do_report (w : Wsp) : (do_report w).batsd = w.batsd := rfl

theorem trace_do_report (w : Wsp) : (do_report w).trace = w.trace ++ [Event.report] := rfl

theorem batsd_cleanup_corrected (w : Wsp) : (cleanup_corrected w).batsd = w.batsd := by
  unfold cleanup_corrected; split <;> rfl

theorem batsd_cleanup_reg (w : Wsp) : (cleanup_reg w).batsd = w.batsd := by
  unfold cleanup_reg; split <;> rfl

theorem batsd_cleanup_basil (w : Wsp) : (cleanup_basil w).batsd = w.batsd := by
  unfold cleanup_basil; split <;> rfl

theorem batsd_cleanup_calib (w : Wsp) : (cleanup_calib w).batsd = w.batsd := by
  unfold cleanup_calib; split <;> rfl

theorem batsd_do_cleanup (w : Wsp) : (do_cleanup w).batsd = w.batsd := by
  unfold do_cleanup
  rw [batsd_cleanup_calib, batsd_cleanup_basil, batsd_cleanup_reg, batsd_cleanup_corrected]

theorem trace_cleanup_corrected (w : Wsp) : (cleanup_corrected w).trace = w.trace := by
  unfold cleanup_corrected; split <;> rfl

theorem trace_cleanup_reg (w : Wsp) : (cleanup_reg w).trace = w.trace := by
  unfold cleanup_reg; split <;> rfl

theorem trace_cleanup_basil (w : Wsp) : (cleanup_basil w).trace = w.trace := by
  unfold cleanup_basil; split <;> rfl

theorem trace_cleanup_calib (w : Wsp) : (cleanup_calib w).trace = w.trace := by
  unfold cleanup_calib; split <;> rfl

theorem trace_do_cleanup (w : Wsp) : (do_cleanup w).trace = w.trace := by
  unfold do_cleanup
  rw [trace_cleanup_calib, trace_cleanup_basil, trace_cleanup_reg, trace_cleanup_corrected]

theorem pvcorr_pvcorr_cond_arg (o : Oracle) (w : Wsp) :
    pvcorr_cond o w = if w.pvcorr then pvcorr_phase o w else w := rfl

theorem corrected_cleanup_corrected (w : Wsp) :
    (cleanup_corrected w).corrected = if w.save_all || w.save_corrected then w.corrected else none := by
  unfold cleanup_corrected
  rcases h : (w.save_all || w.save_corrected) <;> simp [h]

theorem distcorr_cleanup_corrected (w : Wsp) :
    (cleanup_corrected w).distcorr = if w.save_all || w.save_corrected then w.distcorr else none := by
  unfold cleanup_corrected
  rcases h : (w.save_all || w.save_corrected) <;> simp [h]

theorem moco_cleanup_corrected (w : Wsp) :
    (cleanup_corrected w).moco = if w.save_all || w.save_corrected then w.moco else none := by
  unfold cleanup_corrected
  rcases h : (w.save_all || w.save_corrected) <;> simp [h]

theorem topup_cleanup_corrected (w : Wsp) :
    (cleanup_corrected w).topup = if w.save_all || w.save_corrected then w.topup else none := by
  unfold cleanup_corrected
  rcases h : (w.save_all || w.save_corrected) <;> simp [h]

theorem fieldmap_cleanup_corrected (w : Wsp) :
    (cleanup_corrected w).fieldmap = if w.save_all || w.save_corrected then w.fieldmap else none := by
  unfold cleanup_corrected
  rcases h : (w.save_all || w.save_corrected) <;> simp [h]

theorem reg_cleanup_corrected (w : Wsp) : (cleanup_corrected w).reg = w.reg := by
  unfold cleanup_corrected; split <;> rfl

theorem basil_cleanup_corrected (w : Wsp) : (cleanup_corrected w).basil = w.basil := by
  unfold cleanup_corrected; split <;> rfl

theorem calibration_cleanup_corrected (w : Wsp) :
    (cleanup_corrected w).calibration = w.calibration := by
  unfold cleanup_corrected; split <;> rfl

theorem save_all_cleanup_corrected (w : Wsp) :
    (cleanup_corrected w).save_all = w.save_all := by
  unfold cleanup_corrected; split <;> rfl

theorem save_reg_cleanup_corrected (w : Wsp) :
    (cleanup_corrected w).save_reg = w.save_reg := by
  unfold cleanup_corrected; split <;> rfl

theorem save_basil_cleanup_corrected (w : Wsp) :
    (cleanup_corrected w).save_basil = w.save_basil := by
  unfold cleanup_corrected; split <;> rfl

theorem save_calib_cleanup_corrected (w : Wsp) :
    (cleanup_corrected w).save_calib = w.save_calib := by
  unfold cleanup_corrected; split <;> rfl

theorem reg_cleanup_reg (w : Wsp) :
    (cleanup_reg w).reg = if w.save_all || w.save_reg then w.reg else none := by
  unfold cleanup_reg
  rcases h : (w.save_all || w.save_reg) <;> simp [h]

theorem corrected_cleanup_reg (w : Wsp) : (cleanup_reg w).corrected = w.corrected := by
  unfold cleanup_reg; split <;> rfl

theorem distcorr_cleanup_reg (w : Wsp) : (cleanup_reg w).distcorr = w.distcorr := by
  unfold cleanup_reg; split <;> rfl

theorem moco_cleanup_reg (w : Wsp) : (cleanup_reg w).moco = w.moco := by
  unfold cleanup_reg; split <;> rfl

theorem topup_cleanup_reg (w : Wsp) : (cleanup_reg w).topup = w.topup := by
  unfold cleanup_reg; split <;> rfl

theorem fieldmap_cleanup_reg (w : Wsp) : (cleanup_reg w).fieldmap = w.fieldmap := by
  unfold cleanup_reg; split <;> rfl

theorem basil_cleanup_reg (w : Wsp) : (cleanup_reg w).basil = w.basil := by
  unfold cleanup_reg; split <;> rfl

theorem calibration_cleanup_reg (w : Wsp) : (cleanup_reg w).calibration = w.calibration := by
  unfold cleanup_reg; split <;> rfl

theorem save_all_cleanup_reg (w : Wsp) : (cleanup_reg w).save_all = w.save_all := by
  unfold cleanup_reg; split <;> rfl

theorem save_basil_cleanup_reg (w : Wsp) : (cleanup_reg w).save_basil = w.save_basil := by
  unfold cleanup_reg; split <;> rfl

theorem save_calib_cleanup_reg (w : Wsp) : (cleanup_reg w).save_calib = w.save_calib := by
  unfold cleanup_reg; split <;> rfl

theorem basil_cleanup_basil (w : Wsp) :
    (cleanup_basil w).basil = if w.save_all || w.save_basil then w.basil else none := by
  unfold cleanup_basil
  rcases h : (w.save_all || w.save_basil) <;> simp [h]

theorem corrected_cleanup_basil (w : Wsp) : (cleanup_basil w).corrected = w.corrected := by
  unfold cleanup_basil; split <;> rfl

theorem distcorr_cleanup_basil (w : Wsp) : (cleanup_basil w).distcorr = w.distcorr := by
  unfold cleanup_basil; split <;> rfl

theorem moco_cleanup_basil (w : Wsp) : (cleanup_basil w).moco = w.moco := by
  unfold cleanup_basil; split <;> rfl

theorem topup_cleanup_basil (w : Wsp) : (cleanup_basil w).topup = w.topup := by
  unfold cleanup_basil; split <;> rfl

theorem fieldmap_cleanup_basil (w : Wsp) : (cleanup_basil w).fieldmap = w.fieldmap := by
  unfold cleanup_basil; split <;> rfl

theorem reg_cleanup_basil (w : Wsp) : (cleanup_basil w).reg = w.reg := by
  unfold cleanup_basil; split <;> rfl

theorem calibration_cleanup_basil (w : Wsp) :
    (cleanup_basil w).calibration = w.calibration := by
  unfold cleanup_basil; split <;> rfl

theorem save_all_cleanup_basil (w : Wsp) : (cleanup_basil w).save_all = w.save_all := by
  unfold cleanup_basil; split <;> rfl

theorem save_calib_cleanup_basil (w : Wsp) : (cleanup_basil w).save_calib = w.save_calib := by
  unfold cleanup_basil; split <;> rfl

theorem calibration_cleanup_calib (w : Wsp) :
    (cleanup_calib w).calibration = if w.save_all || w.save_calib then w.calibration else none := by
  unfold cleanup_calib
  rcases h : (w.save_all || w.save_calib) <;> simp [h]

theorem corrected_cleanup_calib (w : Wsp) : (cleanup_calib w).corrected = w.corrected := by
  unfold cleanup_calib; split <;> rfl

theorem distcorr_cleanup_calib (w : Wsp) : (cleanup_calib w).distcorr = w.distcorr := by
  unfold cleanup_calib; split <;> rfl

theorem moco_cleanup_calib (w : Wsp) : (cleanup_calib w).moco = w.moco := by
  unfold cleanup_calib; split <;> rfl

theorem topup_cleanup_calib (w : Wsp) : (cleanup_calib w).topup = w.topup := by
  unfold cleanup_calib; split <;> rfl

theorem fieldmap_cleanup_calib (w : Wsp) : (cleanup_calib w).fieldmap = w.fieldmap := by
  unfold cleanup_calib; split <;> rfl

theorem reg_cleanup_calib (w : Wsp) : (cleanup_calib w).reg = w.reg := by
  unfold cleanup_calib; split <;> rfl

theorem basil_cleanup_calib (w : Wsp) : (cleanup_calib w).basil = w.basil := by
  unfold cleanup_calib; split <;> rfl

/-- C2: the cleanup stage discards an artifact group exactly when neither the
group's explicit save flag nor the save-all override is set: each of the
corrected-data attributes (corrected, distcorr, moco, topup, fieldmap), the
registration group, the model-fit group and the calibration group equals its
prior value when its flag or the override is set, and the absence marker
otherwise. -/
theorem c2_cleanup_retention (w : Wsp) :
    ((do_cleanup w).corrected = if w.save_all || w.save_corrected then w.corrected else none) ∧
    ((do_cleanup w).distcorr = if w.save_all || w.save_corrected then w.distcorr else none) ∧
    ((do_cleanup w).moco = if w.save_all || w.save_corrected then w.moco else none) ∧
    ((do_cleanup w).topup = if w.save_all || w.save_corrected then w.topup else none) ∧
    ((do_cleanup w).fieldmap = if w.save_all || w.save_corrected then w.fieldmap else none) ∧
    ((do_cleanup w).reg = if w.save_all || w.save_reg then w.reg else none) ∧
    ((do_cleanup w).basil = if w.save_all || w.save_basil then w.basil else none) ∧
    ((do_cleanup w).calibration = if w.save_all || w.save_calib then w.calibration else none) := by
  unfold do_cleanup
  refine ⟨?_, ?_, ?_, ?_, ?_, ?_, ?_, ?_⟩
  · rw [corrected_cleanup_calib, corrected_cleanup_basil, corrected_cleanup_reg,
      corrected_cleanup_corrected]
  · rw [distcorr_cleanup_calib, distcorr_cleanup_basil, distcorr_cleanup_reg,
      distcorr_cleanup_corrected]
  · rw [moco_cleanup_calib, moco_cleanup_basil, moco_cleanup_reg, moco_cleanup_corrected]
  · rw [topup_cleanup_calib, topup_cleanup_basil, topup_cleanup_reg, topup_cleanup_corrected]
  · rw [fieldmap_cleanup_calib, fieldmap_cleanup_basil, fieldmap_cleanup_reg,
      fieldmap_cleanup_corrected]
  · rw [reg_cleanup_calib, reg_cleanup_basil, reg_cleanup_reg, save_all_cleanup_corrected,
      save_reg_cleanup_corrected, reg_cleanup_corrected]
  · rw [basil_cleanup_calib, basil_cleanup_basil, save_all_cleanup_reg,
      save_all_cleanup_corrected, save_basil_cleanup_reg, save_basil_cleanup_corrected,
      basil_cleanup_reg, basil_cleanup_corrected]
  · rw [calibration_cleanup_calib, save_all_cleanup_basil, save_all_cleanup_reg,
      save_all_cleanup_corrected, save_calib_cleanup_basil, save_calib_cleanup_reg,
      save_calib_cleanup_corrected, calibration_cleanup_basil, calibration_cleanup_reg,
      calibration_cleanup_corrected]

/-- C5: the preprocessing phase invokes the correction applier exactly three
times in fixed order (before motion-correction estimation, immediately after
the motion-correction transform is computed, and after the fieldmap,
blip-pair and sensitivity corrections), with first-pass registration between
the second and third applications and the native-space mask generated last:
its collaborator trace is exactly `preproc_events`. -/
theorem c5_preproc_order (o : Oracle) (w : Wsp) :
    (oxasl_preproc o w).trace = w.trace ++ preproc_events ∧
    preproc_events.countP (fun e => decide (e = Event.apply_corrections)) = 3 ∧
    preproc_events.getD 1 Event.report = Event.apply_corrections ∧
    preproc_events.getD 2 Event.report = Event.get_motion_correction ∧
    preproc_events.getD 3 Event.report = Event.apply_corrections ∧
    preproc_events.getD 5 Event.report = Event.reg_asl2struc true false ∧
    preproc_events.getD 9 Event.report = Event.apply_corrections ∧
    preproc_events.getLast? = some Event.generate_mask := by
  refine ⟨?_, by decide, by decide, by decide, by decide, by decide, by decide, by decide⟩
  simp [oxasl_preproc, generate_mask, apply_corrections, get_sensitivity_correction,
    get_cblip_correction, get_fieldmap_correction, reg_asl2struc, reg_asl2calib,
    get_motion_correction, struc_init, preproc_events]

/-- C6: the model phase widens the tissue arrival-time prior standard
deviation to the liberal default 1 exactly when the data has more than one
timepoint and no explicit value was supplied; in particular a user-supplied
value is never modified anywhere in the model phase. -/
theorem c6_batsd_widening (o : Oracle) (w : Wsp) :
    (oxasl_model o w).batsd = if 1 < w.ntis ∧ w.batsd = none then some 1 else w.batsd := by
  unfold oxasl_model
  rw [batsd_do_cleanup, batsd_do_report, batsd_do_output, batsd_pvcorr_cond,
    batsd_refinement_cond, batsd_basil_run, batsd_set_batsd_default]

/-- C9: setting the debug option forces the save-all override true during
command-line defaulting, and a workspace whose save-all override is set
passes through the cleanup stage completely unchanged, so no artifact group
is discarded. -/
theorem c9_debug_save_all (w v : Wsp) :
    (main_defaults { w with debug := true }).save_all = true ∧
    do_cleanup { v with save_all := true } = { v with save_all := true } := by
  constructor
  · unfold main_defaults
    split
    · split <;> rfl
    · rfl
  · unfold do_cleanup cleanup_calib cleanup_basil cleanup_reg cleanup_corrected
    simp

/-- C10: neither the refinement step nor output materialization mutates the
raw model-fit artifacts: the `basil` sub-workspace (holding `finalstep`'s
parameter maps) is unchanged by the refinement body, by the guarded
refinement phase, and by output materialization. -/
theorem c10_fit_artifacts_frame (o : Oracle) (w : Wsp) :
    (refine o w).basil = w.basil ∧
    (refinement_cond o w).basil = w.basil ∧
    (do_output w).basil = w.basil :=
  ⟨basil_refine o w, basil_refinement_cond o w, basil_do_output w⟩

/-- C3: when no structural reference is configured, the refinement phase
does not execute: the registration sub-workspace (including `regfrom`,
`asl2struc`, `struc2asl`, and the absent `..._orig` / `..._initial`
attributes) is exactly what it was before the model-fit/refinement segment,
and the second-pass (BBR) registration is never invoked anywhere in the
model phase. -/
theorem c3_no_refinement_without_structural (o : Oracle) (w : Wsp)
    (hs : w.structural.struc = none) (ht : w.trace = []) :
    (refinement_cond o (basil_run o .basil none (set_batsd_default w))).reg = w.reg ∧
    Event.reg_asl2struc false true ∉ (oxasl_model o w).trace := by
  have hst : (basil_run o .basil none (set_batsd_default w)).structural.struc = none := by
    rw [structural_basil_run, structural_set_batsd_default, hs]
  have hskip := refinement_cond_none o _ hst
  constructor
  · rw [hskip, reg_basil_run, reg_set_batsd_default]
  · unfold oxasl_model
    rw [trace_do_cleanup, trace_do_report, trace_do_output, hskip]
    unfold pvcorr_cond
    split
    · rw [trace_pvcorr_phase, trace_basil_run, trace_set_batsd_default, ht]
      split <;> simp
    · rw [trace_basil_run, trace_set_batsd_default, ht]
      simp

/-- C4: when the refinement phase executes, the new registration target is
the fitted perfusion map with every negative voxel replaced by zero (hence
nonnegative) under the original target's header, and the final state records
the original target as `regfrom_orig` and the prior forward and inverse
transforms under the `..._initial` names, with the second-pass registration
invoked on that state. -/
theorem c4_refinement_target (o : Oracle) (w : Wsp) (simg : Image) (r : RegWsp)
    (rf : Image) (b : BasilWsp) (ft : Image)
    (hs : w.structural.struc = some simg) (hr : w.reg = some r)
    (hrf : r.regfrom = some rf) (hb : w.basil = some b)
    (hf : b.finalstep.mean_ftiss = some ft) :
    ∃ r', (refinement_cond o w).reg = some r' ∧
      r'.regfrom = some ⟨clampNeg ft.data, rf.header⟩ ∧
      r'.regfrom_orig = some rf ∧
      r'.asl2struc_initial = r.asl2struc ∧
      r'.struc2asl_initial = r.struc2asl ∧
      (∀ v ∈ clampNeg ft.data, 0 ≤ v) ∧
      (∀ i, i < ft.data.length →
        (clampNeg ft.data).getD i 0 =
          if ft.data.getD i 0 < 0 then 0 else ft.data.getD i 0) ∧
      (refinement_cond o w).trace = w.trace ++ [Event.reg_asl2struc false true] := by
  unfold refinement_cond
  rw [if_pos (by rw [hs]; exact Option.some_ne_none simg)]
  unfold refine
  rw [hr, hb]
  dsimp only
  rw [hrf, hf]
  dsimp only
  unfold reg_asl2struc
  refine ⟨_, rfl, rfl, rfl, rfl, rfl, clampNeg_nonneg ft.data,
    fun i hi => clampNeg_getD ft.data i hi, rfl⟩

theorem basil_regen_mask_cond (o : Oracle) (w : Wsp) :
    (regen_mask_cond o w).basil = w.basil := by
  unfold regen_mask_cond; split <;> rfl

theorem basil_struc_segment (o : Oracle) (w : Wsp) :
    (struc_segment o w).basil = w.basil := rfl

theorem basil_struc2asl_wm (o : Oracle) (w : Wsp) :
    (struc2asl_wm o w).basil = w.basil := rfl

theorem basil_struc2asl_gm (o : Oracle) (w : Wsp) :
    (struc2asl_gm o w).basil = w.basil := rfl

theorem basil_set_basil_options (w : Wsp) : (set_basil_options w).basil = w.basil := rfl

theorem basil_basil_run_pvcorr (o : Oracle) (p : Option Bool) (w : Wsp) :
    (basil_run o .basil_pvcorr p w).basil = w.basil := rfl

theorem basil_pvcorr_basil_run_pvcorr (o : Oracle) (p : Option Bool) (w : Wsp) :
    (basil_run o .basil_pvcorr p w).basil_pvcorr = some ⟨o.fit_result w p⟩ := rfl

theorem do_output_item_skip (X : Wsp) (b : BasilWsp) (it : FabberKey × String × Int × Bool)
    (hb : X.basil = some b) (hn : b.finalstep.ifnone it.1 = none) :
    do_output_item X it = X := by
  unfold do_output_item
  rw [hb]
  dsimp only
  rw [hn]

theorem do_output_item_store_nonperf (X : Wsp) (b : BasilWsp) (m img : Image)
    (key : FabberKey) (name : String) (mult : Int)
    (hb : X.basil = some b) (hm : X.rois.mask = some m)
    (hf : b.finalstep.ifnone key = some img) :
    do_output_item X (key, name, mult, false) =
      { X with native := X.native ++ [(name, materialize img m)] } := by
  unfold do_output_item
  rw [hb]
  dsimp only
  rw [hf]
  dsimp only
  rw [hm]
  simp

theorem do_output_item_store_perf (X : Wsp) (b : BasilWsp) (m img : Image)
    (key : FabberKey) (name : String) (mult : Int)
    (hb : X.basil = some b) (hm : X.rois.mask = some m)
    (hf : b.finalstep.ifnone key = some img)
    (hs : X.sensitivity = none) (hc : X.calib_opt ≠ none) :
    do_output_item X (key, name, mult, true) =
      { X with multiplier := mult,
               native := X.native ++ [(name, materialize img m),
                 (name ++ "_calib",
                  Image.mk ((materialize img m).data.map (fun v => v * mult)) img.header)] } := by
  unfold do_output_item
  rw [hb]
  dsimp only
  rw [hf]
  dsimp only
  rw [hm]
  dsimp only
  unfold apply_sensitivity_correction
  rw [hs]
  dsimp only
  rw [if_pos (by exact ⟨rfl, hc⟩)]
  simp [calibrate, materialize]

/-- C7: the partial-volume-correction branch runs only when the user flag is
set (the gated step is the identity otherwise); when it runs its second
model fit leaves the first fit's sub-workspace untouched, populates
the distinct `basil_pvcorr` sub-workspace, and is the last collaborator
invoked, with warm-start explicitly disabled (`prefit = some false`);
and the mask is regenerated (original saved as `rois.mask_orig`) exactly
when no explicit user mask was given and a structural reference exists. -/
theorem c7_pvcorr_branch (o : Oracle) (w : Wsp) :
    (w.pvcorr = false → pvcorr_cond o w = w) ∧
    (w.pvcorr = true →
      (pvcorr_cond o w).basil = w.basil ∧
      (∃ fsr : FinalStep, (pvcorr_cond o w).basil_pvcorr = some ⟨fsr⟩) ∧
      (pvcorr_cond o w).trace.getLast? =
        some (Event.basil_run .basil_pvcorr (some false))) ∧
    (w.mask_opt = none ∧ w.struc_opt ≠ none →
      (regen_mask_cond o w).rois.mask_orig = w.rois.mask ∧
      (∃ mimg, (regen_mask_cond o w).rois.mask = some mimg) ∧
      (regen_mask_cond o w).trace = w.trace ++ [Event.generate_mask]) ∧
    (¬(w.mask_opt = none ∧ w.struc_opt ≠ none) → regen_mask_cond o w = w) := by
  refine ⟨?_, ?_, ?_, ?_⟩
  · intro h
    unfold pvcorr_cond
    simp [h]
  · intro h
    have hcond : pvcorr_cond o w = pvcorr_phase o w := by
      unfold pvcorr_cond
      simp [h]
    rw [hcond]
    unfold pvcorr_phase
    refine ⟨?_, ⟨_, rfl⟩, ?_⟩
    · rw [basil_basil_run_pvcorr, basil_set_basil_options, basil_struc2asl_gm,
        basil_struc2asl_wm, basil_struc_segment, basil_regen_mask_cond]
    · rw [trace_basil_run, List.getLast?_concat]
  · intro h
    unfold regen_mask_cond
    rw [if_pos h]
    exact ⟨rfl, ⟨_, rfl⟩, rfl⟩
  · intro h
    unfold regen_mask_cond
    rw [if_neg h]

/-- C8: in output materialization a declared quantity whose raw model-fit
artifact is absent is skipped without effect (the state is returned
unchanged), and materialization of the remaining quantities proceeds: with
only the raw model fit present, the native outputs receive exactly the
clamped-and-masked model-fit image. -/
theorem c8_absent_artifact_skipped (w : Wsp) (b : BasilWsp) (m img : Image)
    (hb : w.basil = some b) (hm : w.rois.mask = some m)
    (hfs : b.finalstep = ⟨none, none, none, none, none, some img⟩) :
    (∀ it : FabberKey × String × Int × Bool,
      b.finalstep.ifnone it.1 = none → do_output_item w it = w) ∧
    (do_output w).native = w.native ++ [("modelfit", materialize img m)] := by
  have hb0 : (calib_init w).basil = some b := hb
  have hm0 : (calib_init w).rois.mask = some m := hm
  constructor
  · intro it hn
    exact do_output_item_skip w b it hb hn
  · unfold do_output
    simp only [output_items, List.foldl_cons, List.foldl_nil]
    rw [do_output_item_skip (calib_init w) b (FabberKey.mean_ftiss, "perfusion", 6000, true)
      hb0 (by rw [hfs]; rfl)]
    rw [do_output_item_skip (calib_init w) b (FabberKey.mean_fblood, "aCBV", 100, true)
      hb0 (by rw [hfs]; rfl)]
    rw [do_output_item_skip (calib_init w) b (FabberKey.mean_delttiss, "arrival", 1, false)
      hb0 (by rw [hfs]; rfl)]
    rw [do_output_item_skip (calib_init w) b (FabberKey.mean_ftisswm, "perfusion_wm", 6000, true)
      hb0 (by rw [hfs]; rfl)]
    rw [do_output_item_skip (calib_init w) b (FabberKey.mean_deltwm, "arrival_wm", 1, false)
      hb0 (by rw [hfs]; rfl)]
    rw [do_output_item_store_nonperf (calib_init w) b m img FabberKey.modelfit "modelfit" 1
      hb0 hm0 (by rw [hfs]; rfl)]
    rfl

/-- C1: in output materialization the clamped-and-masked image is 0 at every
voxel whose raw value is negative or whose mask value is 0 and equals the
raw value elsewhere; with no sensitivity map registered, a perfusion-like
quantity stores this image and (when calibration data is present) a
calibrated copy derived from it by the per-quantity multiplier, so with a
nonnegative multiplier the calibrated output is never negative; a
non-perfusion quantity stores the clamped-and-masked image alone. -/
theorem c1_output_clamp_mask_calibrate (w : Wsp) (b : BasilWsp) (img m : Image)
    (key : FabberKey) (name : String) (mult : Int)
    (hb : w.basil = some b) (hf : b.finalstep.ifnone key = some img)
    (hm : w.rois.mask = some m) (hs : w.sensitivity = none)
    (hc : w.calib_opt ≠ none) (hl : img.data.length = m.data.length) :
    (∀ i, i < img.data.length →
      (materialize img m).data.getD i 0 =
        if img.data.getD i 0 < 0 ∨ m.data.getD i 0 = 0 then 0
        else img.data.getD i 0) ∧
    (do_output_item w (key, name, mult, true)).native =
      w.native ++ [(name, materialize img m),
        (name ++ "_calib",
         Image.mk ((materialize img m).data.map (fun v => v * mult)) img.header)] ∧
    (do_output_item w (key, name, mult, false)).native =
      w.native ++ [(name, materialize img m)] ∧
    (0 ≤ mult → ∀ v ∈ (materialize img m).data.map (fun v => v * mult), 0 ≤ v) := by
  refine ⟨?_, ?_, ?_, ?_⟩
  · intro i hi
    exact maskZero_clampNeg_getD img.data m.data i hi hl
  · rw [do_output_item_store_perf w b m img key name mult hb hm hf hs hc]
  · rw [do_output_item_store_nonperf w b m img key name mult hb hm hf]
  · intro hmult v hv
    simp only [List.mem_map] at hv
    obtain ⟨x, hx, hxv⟩ := hv
    subst hxv
    have hx0 : 0 ≤ x :=
      maskZero_nonneg (clampNeg img.data) m.data (clampNeg_nonneg img.data) x hx
    exact mul_nonneg hx0 hmult

/-- A concrete oracle instance used by the witness theorems. -/
def oracle0 : Oracle where
  apply_corrections_result := fun _ => some 0
  motion_correction_result := fun _ => some 0
  fieldmap_result := fun _ => some 0
  cblip_result := fun _ => some 0
  sensitivity_result := fun _ => none
  asl2calib_result := fun _ => some 0
  asl2struc_result := fun _ _ _ => (0, 0)
  mask_result := fun _ => ⟨[1], 0⟩
  fit_result := fun _ _ => ⟨some ⟨[-5], 0⟩, none, none, none, none, none⟩
  segment_result := fun _ => (⟨[1], 0⟩, ⟨[1], 0⟩)
  struc2asl_result := fun _ i => i

/-- A concrete workspace with empty options and artifacts, used by the
witness theorems. -/
def wsp0 : Wsp where
  ntis := 1
  batsd := none
  pvcorr := false
  mask_opt := none
  struc_opt := none
  calib_opt := none
  calib_method := none
  debug := false
  save_all := false
  save_corrected := false
  save_reg := false
  save_basil := false
  save_calib := false
  sensitivity := none
  corrected := none
  distcorr := none
  moco := none
  topup := none
  fieldmap := none
  calib2asl := none
  structural := ⟨none, none, none, none, none⟩
  reg := none
  basil := none
  basil_pvcorr := none
  basil_options := none
  rois := ⟨none, none⟩
  calibration := none
  multiplier := 1
  native := []
  trace := []

/-- Witness for C3 at a concrete workspace with no structural reference. -/
theorem c3_witness :
    (refinement_cond oracle0 (basil_run oracle0 .basil none (set_batsd_default wsp0))).reg =
      wsp0.reg ∧
    Event.reg_asl2struc false true ∉ (oxasl_model oracle0 wsp0).trace :=
  c3_no_refinement_without_structural oracle0 wsp0 rfl rfl

/-- Concrete workspace on which the refinement phase executes. -/
def c4_wsp : Wsp :=
  { wsp0 with
    structural := ⟨some ⟨[], 0⟩, none, none, none, none⟩,
    reg := some ⟨some ⟨[3], 5⟩, none, none, none, none, none⟩,
    basil := some ⟨⟨some ⟨[-2, 4], 9⟩, none, none, none, none, none⟩⟩ }

/-- Witness for C4 at a concrete workspace with a structural reference, a
resolved registration target and a fitted perfusion map with a negative
voxel. -/
theorem c4_witness :
    ∃ r', (refinement_cond oracle0 c4_wsp).reg = some r' ∧
      r'.regfrom = some ⟨clampNeg [-2, 4], 5⟩ ∧
      r'.regfrom_orig = some ⟨[3], 5⟩ ∧
      r'.asl2struc_initial = none ∧
      r'.struc2asl_initial = none ∧
      (∀ v ∈ clampNeg [-2, 4], 0 ≤ v) ∧
      (∀ i, i < ([-2, 4] : List Int).length →
        (clampNeg [-2, 4]).getD i 0 =
          if ([-2, 4] : List Int).getD i 0 < 0 then 0
          else ([-2, 4] : List Int).getD i 0) ∧
      (refinement_cond oracle0 c4_wsp).trace =
        c4_wsp.trace ++ [Event.reg_asl2struc false true] :=
  c4_refinement_target oracle0 c4_wsp ⟨[], 0⟩
    ⟨some ⟨[3], 5⟩, none, none, none, none, none⟩ ⟨[3], 5⟩
    ⟨⟨some ⟨[-2, 4], 9⟩, none, none, none, none, none⟩⟩ ⟨[-2, 4], 9⟩
    rfl rfl rfl rfl rfl

/-- Concrete workspace with the partial-volume flag set, no user mask and a
structural image supplied. -/
def c7_wsp : Wsp :=
  { wsp0 with pvcorr := true, struc_opt := some ⟨[], 0⟩ }

/-- Witness for C7 at concrete workspaces with the partial-volume flag unset
and set. -/
theorem c7_witness :
    (pvcorr_cond oracle0 wsp0 = wsp0) ∧
    ((pvcorr_cond oracle0 c7_wsp).basil = c7_wsp.basil ∧
      (∃ fsr : FinalStep, (pvcorr_cond oracle0 c7_wsp).basil_pvcorr = some ⟨fsr⟩) ∧
      (pvcorr_cond oracle0 c7_wsp).trace.getLast? =
        some (Event.basil_run .basil_pvcorr (some false))) ∧
    ((regen_mask_cond oracle0 c7_wsp).rois.mask_orig = c7_wsp.rois.mask ∧
      (∃ mimg, (regen_mask_cond oracle0 c7_wsp).rois.mask = some mimg) ∧
      (regen_mask_cond oracle0 c7_wsp).trace = c7_wsp.trace ++ [Event.generate_mask]) ∧
    (regen_mask_cond oracle0 wsp0 = wsp0) :=
  ⟨(c7_pvcorr_branch oracle0 wsp0).1 rfl,
   (c7_pvcorr_branch oracle0 c7_wsp).2.1 rfl,
   (c7_pvcorr_branch oracle0 c7_wsp).2.2.1 ⟨rfl, by decide⟩,
   (c7_pvcorr_branch oracle0 wsp0).2.2.2 (by decide)⟩

/-- Concrete workspace whose model fit produced only the raw model-fit
image. -/
def c8_wsp : Wsp :=
  { wsp0 with
    basil := some ⟨⟨none, none, none, none, none, some ⟨[7, -3], 2⟩⟩⟩,
    rois := ⟨some ⟨[1, 0], 4⟩, none⟩ }

/-- Witness for C8 at a concrete workspace where the first five declared
quantities are absent and the model-fit image is present. -/
theorem c8_witness :
    (∀ it : FabberKey × String × Int × Bool,
      (⟨⟨none, none, none, none, none, some ⟨[7, -3], 2⟩⟩⟩ : BasilWsp).finalstep.ifnone it.1 =
          none →
        do_output_item c8_wsp it = c8_wsp) ∧
    (do_output c8_wsp).native =
      c8_wsp.native ++ [("modelfit", materialize ⟨[7, -3], 2⟩ ⟨[1, 0], 4⟩)] :=
  c8_absent_artifact_skipped c8_wsp ⟨⟨none, none, none, none, none, some ⟨[7, -3], 2⟩⟩⟩
    ⟨[1, 0], 4⟩ ⟨[7, -3], 2⟩ rfl rfl rfl

/-- Concrete workspace with a fitted perfusion map holding a -5 voxel, an
all-ones mask and calibration data present. -/
def c1_wsp : Wsp :=
  { wsp0 with
    basil := some ⟨⟨some ⟨[-5, 3], 7⟩, none, none, none, none, none⟩⟩,
    rois := ⟨some ⟨[1, 1], 0⟩, none⟩,
    calib_opt := some ⟨[], 0⟩ }

/-- Witness for C1: a raw value of -5 at an in-mask voxel with calibration
multiplier 6000 materializes as calibrated output 0, not -30000. -/
theorem c1_witness :
    (do_output_item c1_wsp (FabberKey.mean_ftiss, "perfusion", 6000, true)).native =
      [("perfusion", (⟨[0, 3], 7⟩ : Image)),
       ("perfusion_calib", (⟨[0, 18000], 7⟩ : Image))] := by
  have h := (c1_output_clamp_mask_calibrate c1_wsp
      ⟨⟨some ⟨[-5, 3], 7⟩, none, none, none, none, none⟩⟩ ⟨[-5, 3], 7⟩ ⟨[1, 1], 0⟩
      FabberKey.mean_ftiss "perfusion" 6000 rfl rfl rfl rfl (by decide) rfl).2.1
  rw [h]
  decide
